import Mathlib

set_option autoImplicit false

/-!
Shallow embedding of `software-team-persistent.py`: a four-role
(CEO/CTO/Tester/Coder) software-team simulator that advances a project
through milestones, persisting project state and per-agent memory as JSON
documents.  Pure functions model each method; file writes become explicit
values (the document that would be written), and the clock becomes an
explicit `Nat → String` stream of `datetime.now().isoformat()` results.
-/

/-- The `ProjectStatus` enum (source line 17).  Each member carries a stable
string tag as its `.value`. -/
inductive ProjectStatus where
  | NOT_STARTED
  | IN_PROGRESS
  | REVIEWING
  | TESTING
  | COMPLETED
  | ON_HOLD
deriving DecidableEq

/-- The `.value` string tag of each `ProjectStatus` member. -/
def ProjectStatus.value : ProjectStatus → String
  | .NOT_STARTED => "not_started"
  | .IN_PROGRESS => "in_progress"
  | .REVIEWING => "reviewing"
  | .TESTING => "testing"
  | .COMPLETED => "completed"
  | .ON_HOLD => "on_hold"

/-- Python runtime values as they occur in this program's dicts after
`dataclasses.asdict`: JSON-style data plus `ProjectStatus` enum members.
`asdict` recurses into dataclasses, lists and dicts but merely deep-copies
other values, so enum members survive unconverted. -/
inductive PyVal where
  | none : PyVal
  | str : String → PyVal
  | enum : ProjectStatus → PyVal
  | list : List PyVal → PyVal
  | dict : List (String × PyVal) → PyVal

/-- One entry of a milestone's `feedback` list, as appended at source
line 324: `{"role": .., "feedback": .., "timestamp": ..}`. -/
structure FeedbackEntry where
  role : String
  feedback : String
  timestamp : String
deriving DecidableEq

/-- The `Milestone` dataclass (source line 25).  `__post_init__` replaces a
`None` feedback by `[]`, so feedback is always a list. -/
structure Milestone where
  id : String
  description : String
  status : ProjectStatus
  assigned_to : String
  created_at : String
  completed_at : Option String := Option.none
  feedback : List FeedbackEntry := []
deriving DecidableEq

/-- The `ProjectState` dataclass (source line 39).  `learning_points` and the
per-role lists in `team_feedback` are never written with typed entries by the
program, so their elements stay `PyVal`. -/
structure ProjectState where
  project_id : String
  name : String
  requirements : String
  status : ProjectStatus
  created_at : String
  updated_at : String
  milestones : List Milestone
  learning_points : List PyVal
  team_feedback : List (String × List PyVal)
  current_milestone_id : Option String

/-- Embed an optional string the way `asdict` leaves it (`None` or `str`). -/
def optStrToPy : Option String → PyVal
  | Option.none => .none
  | some s => .str s

/-- `asdict` on one feedback entry (a plain dict of strings). -/
def FeedbackEntry.toPy (e : FeedbackEntry) : PyVal :=
  .dict [("role", .str e.role), ("feedback", .str e.feedback),
         ("timestamp", .str e.timestamp)]

/-- `dataclasses.asdict` on a `Milestone`: every field becomes a dict entry,
and `status` stays a `ProjectStatus` member. -/
def Milestone.asdict (m : Milestone) : PyVal :=
  .dict [("id", .str m.id), ("description", .str m.description),
         ("status", .enum m.status), ("assigned_to", .str m.assigned_to),
         ("created_at", .str m.created_at),
         ("completed_at", optStrToPy m.completed_at),
         ("feedback", .list (m.feedback.map FeedbackEntry.toPy))]

/-- `ProjectState.to_dict` (source line 52): `asdict(self)`.  The top-level
`status` and every milestone's `status` stay enum members. -/
def ProjectState.to_dict (s : ProjectState) : PyVal :=
  .dict [("project_id", .str s.project_id), ("name", .str s.name),
         ("requirements", .str s.requirements), ("status", .enum s.status),
         ("created_at", .str s.created_at), ("updated_at", .str s.updated_at),
         ("milestones", .list (s.milestones.map Milestone.asdict)),
         ("learning_points", .list s.learning_points),
         ("team_feedback",
          .dict (s.team_feedback.map (fun p => (p.1, PyVal.list p.2)))),
         ("current_milestone_id", optStrToPy s.current_milestone_id)]

mutual
/-- Whether Python's default `json` encoder accepts the value.  `Enum`
members are rejected: `json.dump` raises
`TypeError: Object of type ProjectStatus is not JSON serializable`. -/
def jsonSerializable : PyVal → Bool
  | .none => true
  | .str _ => true
  | .enum _ => false
  | .list xs => jsonSerializableList xs
  | .dict kvs => jsonSerializableDict kvs

/-- Serializability of every element of a list value. -/
def jsonSerializableList : List PyVal → Bool
  | [] => true
  | x :: xs => jsonSerializable x && jsonSerializableList xs

/-- Serializability of every value of a dict (keys are strings already). -/
def jsonSerializableDict : List (String × PyVal) → Bool
  | [] => true
  | kv :: kvs => jsonSerializable kv.2 && jsonSerializableDict kvs
end

/-- The `TypeError` message Python raises for an enum inside `json.dump`. -/
def enumTypeError : String :=
  "TypeError: Object of type ProjectStatus is not JSON serializable"

/-- `ProjectStateManager.save_state` (source line 65):
`json.dump(state.to_dict(), f)`.  Returns the document that reaches the file,
or the `TypeError` raised when the value is not JSON serializable. -/
def save_state (state : ProjectState) : Except String PyVal :=
  if jsonSerializable state.to_dict then .ok state.to_dict
  else .error enumTypeError

/-- One entry of the `decisions` log (source line 110). -/
structure Decision where
  timestamp : String
  decision : String
  context : PyVal

/-- One entry of the `learnings` log (source line 119). -/
structure Learning where
  timestamp : String
  learning : String
deriving DecidableEq

/-- The in-memory `self.memory` dict of `AgentMemory` (source line 96).
Every mutator immediately rewrites the whole document (`save_memory`), so the
persisted document always equals this value. -/
structure AgentMemory where
  decisions : List Decision
  learnings : List Learning
  context : List (String × PyVal)
  next_steps : List String

/-- Python dict assignment `d[k] = v`: an existing key keeps its position and
gets the new value; a new key is appended. -/
def dictSet (d : List (String × PyVal)) (k : String) (v : PyVal) :
    List (String × PyVal) :=
  if d.any (fun kv => kv.1 == k) then
    d.map (fun kv => if kv.1 == k then (k, v) else kv)
  else d ++ [(k, v)]

/-- Python `dict.update`: assign every key of the argument in order. -/
def dictUpdate (d : List (String × PyVal)) :
    List (String × PyVal) → List (String × PyVal)
  | [] => d
  | kv :: rest => dictUpdate (dictSet d kv.1 kv.2) rest

/-- `AgentMemory.add_decision` (source line 108): append one timestamped
decision with its context, then rewrite the document. -/
def AgentMemory.add_decision (mem : AgentMemory) (decision : String)
    (context : PyVal) (now : String) : AgentMemory :=
  { mem with decisions := mem.decisions ++ [⟨now, decision, context⟩] }

/-- `AgentMemory.add_learning` (source line 117): append one timestamped
learning, then rewrite the document. -/
def AgentMemory.add_learning (mem : AgentMemory) (learning : String)
    (now : String) : AgentMemory :=
  { mem with learnings := mem.learnings ++ [⟨now, learning⟩] }

/-- `AgentMemory.update_context` (source line 125): `dict.update` semantics. -/
def AgentMemory.update_context (mem : AgentMemory)
    (context : List (String × PyVal)) : AgentMemory :=
  { mem with context := dictUpdate mem.context context }

/-- `AgentMemory.set_next_steps` (source line 130): wholesale overwrite. -/
def AgentMemory.set_next_steps (mem : AgentMemory) (steps : List String) :
    AgentMemory :=
  { mem with next_steps := steps }

/-- Python's slice `l[-5:]`: the last five elements, or the whole list when it
has fewer than five. -/
def pyLastFive {α : Type} (l : List α) : List α := l.drop (l.length - 5)

/-- The dict returned by `get_memory_summary` (source line 137). -/
structure MemorySummary where
  recent_decisions : List Decision
  key_learnings : List Learning
  current_context : List (String × PyVal)
  pending_steps : List String

/-- `AgentMemory.get_memory_summary` (source line 135): a pure projection of
the memory (the method reads `self.memory` and builds a fresh dict; it calls
no mutator and performs no write). -/
def AgentMemory.get_memory_summary (mem : AgentMemory) : MemorySummary :=
  ⟨pyLastFive mem.decisions, pyLastFive mem.learnings, mem.context,
   mem.next_steps⟩

/-- `asdict`-style embedding of a decision into a Python dict value. -/
def Decision.toPy (d : Decision) : PyVal :=
  .dict [("timestamp", .str d.timestamp), ("decision", .str d.decision),
         ("context", d.context)]

/-- `asdict`-style embedding of a learning into a Python dict value. -/
def Learning.toPy (l : Learning) : PyVal :=
  .dict [("timestamp", .str l.timestamp), ("learning", .str l.learning)]

/-- The summary dict as a Python value, as merged into `full_context`. -/
def MemorySummary.toPy (s : MemorySummary) : PyVal :=
  .dict [("recent_decisions", .list (s.recent_decisions.map Decision.toPy)),
         ("key_learnings", .list (s.key_learnings.map Learning.toPy)),
         ("current_context", .dict s.current_context),
         ("pending_steps", .list (s.pending_steps.map PyVal.str))]

/-- `SoftwareTeamAgent.process_message` (source line 182).  The generation
call is the only fallible step; its outcome is the argument `llm` (the
response text, or the exception text `str(e)`).  The `try` block builds
`full_context = {**context, "memory_summary": summary}`, calls the service,
and on success with `save_decision` records the response with `full_context`
before returning it; the `except` block records a learning and re-raises
`RuntimeError(f"Error in {role} agent: {e}")`. -/
def process_message (role : String) (mem : AgentMemory) (_message : String)
    (context : List (String × PyVal)) (save_decision : Bool)
    (llm : Except String String) (now : String) :
    AgentMemory × Except String String :=
  let full_context := dictSet context "memory_summary" mem.get_memory_summary.toPy
  match llm with
  | .error e =>
      (mem.add_learning ("Error encountered: " ++ e) now,
       .error ("Error in " ++ role ++ " agent: " ++ e))
  | .ok response_text =>
      if save_decision then
        (mem.add_decision response_text (.dict full_context) now,
         .ok response_text)
      else (mem, .ok response_text)

/-- The fixed role order of `self.agents` (source line 245): Python dicts
iterate in insertion order. -/
def roleOrder : List String := ["CEO", "CTO", "Tester", "Coder"]

/-- The f-string `f"milestone_{n}"` of source line 293. -/
def milestoneId (n : Nat) : String := "milestone_" ++ Nat.repr n

/-- `SoftwareTeam.start_new_project` (source line 255): a fresh state with
status `NOT_STARTED`, equal creation/update timestamps, no milestones, and one
empty feedback list per role; it is persisted immediately. -/
def start_new_project (project_id name requirements timestamp : String) :
    ProjectState :=
  { project_id := project_id, name := name, requirements := requirements,
    status := .NOT_STARTED, created_at := timestamp, updated_at := timestamp,
    milestones := [], learning_points := [],
    team_feedback := [("CEO", []), ("CTO", []), ("Tester", []), ("Coder", [])],
    current_milestone_id := Option.none }

/-- The `for role, agent in self.agents.items()` loop of `process_milestone`
(source line 309).  `svc role` is the outcome of that role's
`agent.process_message` call (the response text, or the wrapped error it
raised); `clock k` is the `datetime.now().isoformat()` taken for the k-th
feedback entry.  Returns the accumulated results map, the accumulated
feedback entries, and the first failure, if any; after a failure no further
role is invoked. -/
def roleLoop (svc : String → Except String String) (clock : Nat → String) :
    List String → Nat →
    List (String × String) × List FeedbackEntry × Option String
  | [], _ => ([], [], Option.none)
  | r :: rs, k =>
    match svc r with
    | .error e => ([], [], some e)
    | .ok resp =>
      let rest := roleLoop svc clock rs (k + 1)
      ((r, resp) :: rest.1, ⟨r, resp, clock k⟩ :: rest.2.1, rest.2.2)

/-- Outcome of the counterfactual milestone pipeline below: the states passed
to `save_state` in call order, the end value of `self.state`, and the return
value or propagated exception. -/
structure PMOutcome where
  saves : List ProjectState
  state : ProjectState
  result : Except String (List (String × String))

/-- The milestone allocation and role pipeline of `process_milestone`
(source lines 292-335) under the counterfactual that `save_state` returns
instead of raising; `saves` records the states passed to `save_state`.  The
faithful function, in which `save_state` raises its enum `TypeError` (see
`save_state`), is `process_milestone_run` below; the two agree on every state
field assigned before the checkpoint save or never assigned at all —
milestone ids, overall status, both timestamps, `current_milestone_id` —
which is proved in `run_core_agree`.  Counterfactual body: a new milestone
`milestone_<count+1>` (status `IN_PROGRESS`, assigned to "CTO", empty
feedback) is appended and the state saved before any role runs; then the
role loop; on full success the milestone is marked `COMPLETED` with a
completion timestamp and the results map is returned; on a failure it is
marked `ON_HOLD` (no completion timestamp) keeping the feedback accumulated
so far, and the role error propagates unchanged (`raise`).  The milestone
object is aliased inside `self.state.milestones`, so the final save sees the
updated status and feedback. -/
def process_milestone_core (state : ProjectState) (desc : String)
    (svc : String → Except String String) (clock : Nat → String) : PMOutcome :=
  let milestone_id := milestoneId (state.milestones.length + 1)
  let m0 : Milestone :=
    { id := milestone_id, description := desc, status := .IN_PROGRESS,
      assigned_to := "CTO", created_at := clock 0 }
  let state1 :=
    { state with
      milestones := state.milestones ++ [m0],
      current_milestone_id := some milestone_id }
  let run := roleLoop svc clock roleOrder 1
  match run.2.2 with
  | Option.none =>
    let mdone :=
      { m0 with
        status := .COMPLETED,
        completed_at := some (clock 5),
        feedback := run.2.1 }
    let state2 :=
      { state with
        milestones := state.milestones ++ [mdone],
        current_milestone_id := some milestone_id }
    ⟨[state1, state2], state2, .ok run.1⟩
  | some e =>
    let mhold := { m0 with status := .ON_HOLD, feedback := run.2.1 }
    let state2 :=
      { state with
        milestones := state.milestones ++ [mhold],
        current_milestone_id := some milestone_id }
    ⟨[state1, state2], state2, .error e⟩

/-- Observable outcome of one faithful `process_milestone` call: the
documents actually written to disk (a `json.dump` that returned), the end
value of the in-memory `self.state`, and the return value or propagated
exception. -/
structure PMRun where
  writes : List PyVal
  state : ProjectState
  result : Except String (List (String × String))

/-- `SoftwareTeam.process_milestone` (source lines 292-340), faithful to the
save path: every `save_state` call is the real (fallible) one.  Lines
293-303 build and append the new `IN_PROGRESS` milestone in memory; the
checkpoint save at line 304 sits outside the `try`, so when it raises the
exception propagates at once — no role runs, nothing is written, and
`self.state` keeps the appended milestone.  Inside the `try` (lines
306-335): the role loop, then `COMPLETED` plus the final save; a raise from
that save is caught by the `except` (lines 337-340), which sets `ON_HOLD`
on the same aliased milestone (leaving `completed_at` and feedback as they
were), saves again — a raise there replaces the propagating exception —
and otherwise re-raises the original error. -/
def process_milestone_run (state : ProjectState) (desc : String)
    (svc : String → Except String String) (clock : Nat → String) : PMRun :=
  let milestone_id := milestoneId (state.milestones.length + 1)
  let m0 : Milestone :=
    { id := milestone_id, description := desc, status := .IN_PROGRESS,
      assigned_to := "CTO", created_at := clock 0 }
  let state1 :=
    { state with
      milestones := state.milestones ++ [m0],
      current_milestone_id := some milestone_id }
  match save_state state1 with
  | .error e => ⟨[], state1, .error e⟩
  | .ok doc1 =>
    let run := roleLoop svc clock roleOrder 1
    match run.2.2 with
    | Option.none =>
      let mdone :=
        { m0 with
          status := .COMPLETED,
          completed_at := some (clock 5),
          feedback := run.2.1 }
      let state2 :=
        { state with
          milestones := state.milestones ++ [mdone],
          current_milestone_id := some milestone_id }
      match save_state state2 with
      | .ok doc2 => ⟨[doc1, doc2], state2, .ok run.1⟩
      | .error e2 =>
        let mhold := { mdone with status := .ON_HOLD }
        let state3 :=
          { state with
            milestones := state.milestones ++ [mhold],
            current_milestone_id := some milestone_id }
        match save_state state3 with
        | .ok doc3 => ⟨[doc1, doc3], state3, .error e2⟩
        | .error e3 => ⟨[doc1], state3, .error e3⟩
    | some e =>
      let mhold := { m0 with status := .ON_HOLD, feedback := run.2.1 }
      let state2 :=
        { state with
          milestones := state.milestones ++ [mhold],
          current_milestone_id := some milestone_id }
      match save_state state2 with
      | .ok doc2 => ⟨[doc1, doc2], state2, .error e⟩
      | .error e2 => ⟨[doc1], state2, .error e2⟩

/-- `SoftwareTeam.process_milestone` including the guard at source line 289:
with no loaded state it raises `ValueError("No project state found")`;
otherwise the faithful body runs. -/
def process_milestone (state? : Option ProjectState) (desc : String)
    (svc : String → Except String String) (clock : Nat → String) :
    Except String PMRun :=
  match state? with
  | Option.none => .error "No project state found"
  | some state => .ok (process_milestone_run state desc svc clock)

/-- One driver-level call on a `SoftwareTeam` instance. -/
inductive TeamOp where
  | start (name requirements timestamp : String)
  | milestone (desc : String) (svc : String → Except String String)
      (clock : Nat → String)
  | resume

/-- Whether the op is a `start_new_project` call. -/
def TeamOp.isStart : TeamOp → Bool
  | .start _ _ _ => true
  | _ => false

/-- Effect of one call on the in-memory `self.state`.  `start_new_project`
unconditionally replaces the state; `process_milestone` with no state raises
(leaving it unchanged) and otherwise ends with the mutated state;
`resume_project` (source line 274) only invokes the agents and writes their
memories — it never assigns `self.state` or touches milestones.  The
milestone case uses the counterfactual pipeline's end state; on every field
the runs below are queried about — milestone ids, overall status, both
timestamps, `current_milestone_id` — it coincides with the faithful aborted
run's end state (`run_core_agree`), because those fields are assigned at
source lines 293-303, before the failing save, or never assigned at all. -/
def applyOp (project_id : String) (state? : Option ProjectState) :
    TeamOp → Option ProjectState
  | .start name reqs ts => some (start_new_project project_id name reqs ts)
  | .milestone desc svc clock =>
    match state? with
    | Option.none => state?
    | some st => some (process_milestone_core st desc svc clock).state
  | .resume => state?

/-- Run a sequence of driver calls from a given in-memory state. -/
def runOpsFrom (project_id : String) (state? : Option ProjectState)
    (ops : List TeamOp) : Option ProjectState :=
  ops.foldl (applyOp project_id) state?

/-- Run a sequence of driver calls on a fresh `SoftwareTeam` whose project
was never persisted (`self.state = None`). -/
def runOps (project_id : String) (ops : List TeamOp) : Option ProjectState :=
  runOpsFrom project_id Option.none ops

/-- Every milestone's id is `"milestone_<n>"` for its 1-based position: the
id list is exactly `["milestone_1", "milestone_2", ...]`. -/
def MilestoneIdsOk (s : ProjectState) : Prop :=
  s.milestones.map Milestone.id =
    (List.range s.milestones.length).map (fun i => milestoneId (i + 1))

/-- A generation service that always answers "ok" (for concrete runs). -/
def okSvc : String → Except String String := fun _ => .ok "ok"

/-- A generation service that always fails (for concrete runs). -/
def failSvc : String → Except String String := fun _ => .error "boom"

/-- A constant clock (for concrete runs). -/
def constClock : Nat → String := fun _ => "t"

/-- The state reached by `start_new_project("X","r")` at time "t0" followed by
one fully successful `process_milestone("a")` under `okSvc`/`constClock`. -/
def exampleRunState : ProjectState :=
  { project_id := "p", name := "X", requirements := "r",
    status := .NOT_STARTED, created_at := "t0", updated_at := "t0",
    milestones :=
      [{ id := "milestone_1", description := "a", status := .COMPLETED,
         assigned_to := "CTO", created_at := "t", completed_at := some "t",
         feedback := [⟨"CEO", "ok", "t"⟩, ⟨"CTO", "ok", "t"⟩,
                      ⟨"Tester", "ok", "t"⟩, ⟨"Coder", "ok", "t"⟩] }],
    learning_points := [],
    team_feedback := [("CEO", []), ("CTO", []), ("Tester", []), ("Coder", [])],
    current_milestone_id := some "milestone_1" }

/-- Like `exampleRunState` but after a second successful milestone "b". -/
def exampleRunState2 : ProjectState :=
  { project_id := "p", name := "X", requirements := "r",
    status := .NOT_STARTED, created_at := "t0", updated_at := "t0",
    milestones :=
      [{ id := "milestone_1", description := "a", status := .COMPLETED,
         assigned_to := "CTO", created_at := "t", completed_at := some "t",
         feedback := [⟨"CEO", "ok", "t"⟩, ⟨"CTO", "ok", "t"⟩,
                      ⟨"Tester", "ok", "t"⟩, ⟨"Coder", "ok", "t"⟩] },
       { id := "milestone_2", description := "b", status := .COMPLETED,
         assigned_to := "CTO", created_at := "t", completed_at := some "t",
         feedback := [⟨"CEO", "ok", "t"⟩, ⟨"CTO", "ok", "t"⟩,
                      ⟨"Tester", "ok", "t"⟩, ⟨"Coder", "ok", "t"⟩] }],
    learning_points := [],
    team_feedback := [("CEO", []), ("CTO", []), ("Tester", []), ("Coder", [])],
    current_milestone_id := some "milestone_2" }

/-- The state reached by `start_new_project("X","r")` at time "t0" followed by
one `process_milestone("a")` whose first role call fails, and a resume. -/
def exampleFailState : ProjectState :=
  { project_id := "p", name := "X", requirements := "r",
    status := .NOT_STARTED, created_at := "t0", updated_at := "t0",
    milestones :=
      [{ id := "milestone_1", description := "a", status := .ON_HOLD,
         assigned_to := "CTO", created_at := "t",
         completed_at := Option.none, feedback := [] }],
    learning_points := [],
    team_feedback := [("CEO", []), ("CTO", []), ("Tester", []), ("Coder", [])],
    current_milestone_id := some "milestone_1" }


/-- Decimal digits of `n`, most significant first: the character list that
`Nat.repr` renders. -/
def digitsOf (n : Nat) : List Char :=
  if n < 10 then [Nat.digitChar n]
  else digitsOf (n / 10) ++ [Nat.digitChar (n % 10)]
decreasing_by
  exact Nat.div_lt_self (by omega) (by omega)

/-- Evaluate a decimal digit string back to the number it denotes. -/
def digitsVal (l : List Char) : Nat :=
  l.foldl (fun a c => 10 * a + (c.toNat - 48)) 0

/-- Look up a key in a Python dict (assoc-list) value. -/
def dictGet? (d : List (String × PyVal)) (k : String) : Option PyVal :=
  (d.find? (fun kv => kv.1 == k)).map (fun kv => kv.2)

/-- A `Milestone` as rebuilt by `from_dict` (source line 57):
`Milestone(**m)` performs no type checks or conversions, so each field holds
whatever value the JSON document had — in particular `status` stays the raw
string tag, never a `ProjectStatus` member. -/
structure LoadedMilestone where
  id : PyVal
  description : PyVal
  status : PyVal
  assigned_to : PyVal
  created_at : PyVal
  completed_at : PyVal
  feedback : PyVal

/-- The keyword arguments `Milestone(**m)` accepts. -/
def milestoneKeys : List String :=
  ["id", "description", "status", "assigned_to", "created_at",
   "completed_at", "feedback"]

/-- `Milestone(**m)` followed by `__post_init__` (which replaces a `None`
feedback by `[]`).  Python raises a `TypeError` when `m` is not a mapping,
has an unexpected key, or misses a field without a default; `completed_at`
and `feedback` default to `None`. -/
def milestoneFromDict : PyVal → Except String LoadedMilestone
  | .dict m =>
    if m.all (fun kv => milestoneKeys.contains kv.1) then
      match dictGet? m "id", dictGet? m "description", dictGet? m "status",
            dictGet? m "assigned_to", dictGet? m "created_at" with
      | some i, some de, some st, some asg, some cr =>
        let fb := (dictGet? m "feedback").getD .none
        .ok { id := i, description := de, status := st, assigned_to := asg,
              created_at := cr,
              completed_at := (dictGet? m "completed_at").getD .none,
              feedback := match fb with
                          | .none => .list []
                          | x => x }
      | _, _, _, _, _ => .error "TypeError: missing required argument"
    else .error "TypeError: unexpected keyword argument"
  | _ => .error "TypeError: argument mapping required"

/-- Rebuild every element of the `milestones` list, failing on the first bad
element, as the list comprehension at source line 57 does. -/
def milestonesFromList : List PyVal → Except String (List LoadedMilestone)
  | [] => .ok []
  | m :: ms =>
    match milestoneFromDict m with
    | .error e => .error e
    | .ok lm =>
      match milestonesFromList ms with
      | .error e => .error e
      | .ok rest => .ok (lm :: rest)

/-- A `ProjectState` as rebuilt by `from_dict`: every field except
`milestones` holds the raw JSON value unconverted (`status` stays a string
tag). -/
structure LoadedProjectState where
  project_id : PyVal
  name : PyVal
  requirements : PyVal
  status : PyVal
  created_at : PyVal
  updated_at : PyVal
  milestones : List LoadedMilestone
  learning_points : PyVal
  team_feedback : PyVal
  current_milestone_id : PyVal

/-- The keyword arguments `ProjectState(**data)` requires: all ten fields,
none with a default. -/
def projectStateKeys : List String :=
  ["project_id", "name", "requirements", "status", "created_at", "updated_at",
   "milestones", "learning_points", "team_feedback", "current_milestone_id"]

/-- `ProjectState.from_dict` (source line 55): replaces `data["milestones"]`
by rebuilt `Milestone` objects, then calls `ProjectState(**data)`. -/
def from_dict : PyVal → Except String LoadedProjectState
  | .dict data =>
    match dictGet? data "milestones" with
    | Option.none => .error "KeyError: milestones"
    | some (.list ms) =>
      match milestonesFromList ms with
      | .error e => .error e
      | .ok lms =>
        if data.all (fun kv => projectStateKeys.contains kv.1)
            && projectStateKeys.all (fun k => (dictGet? data k).isSome) then
          .ok { project_id := (dictGet? data "project_id").getD .none,
                name := (dictGet? data "name").getD .none,
                requirements := (dictGet? data "requirements").getD .none,
                status := (dictGet? data "status").getD .none,
                created_at := (dictGet? data "created_at").getD .none,
                updated_at := (dictGet? data "updated_at").getD .none,
                milestones := lms,
                learning_points := (dictGet? data "learning_points").getD .none,
                team_feedback := (dictGet? data "team_feedback").getD .none,
                current_milestone_id :=
                  (dictGet? data "current_milestone_id").getD .none }
        else .error "TypeError: ProjectState argument mismatch"
    | some _ => .error "TypeError: milestones is not a list"
  | _ => .error "TypeError: mapping required"

/-- `ProjectStateManager.load_state` (source line 71) over the directory of
parsed documents: a missing file yields `None` (absence, not an error); an
existing document is deserialized by `from_dict`, whose `TypeError` on a
malformed document propagates. -/
def load_state (store : List (String × PyVal)) (project_id : String) :
    Except String (Option LoadedProjectState) :=
  match dictGet? store project_id with
  | Option.none => .ok Option.none
  | some doc =>
    match from_dict doc with
    | .error e => .error e
    | .ok st => .ok (some st)

/-- A well-formed persisted project document with one nested milestone. -/
def exampleProjectDoc : PyVal :=
  .dict [("project_id", .str "p"), ("name", .str "X"),
         ("requirements", .str "r"), ("status", .str "not_started"),
         ("created_at", .str "t0"), ("updated_at", .str "t0"),
         ("milestones",
          .list [.dict [("id", .str "milestone_1"), ("description", .str "a"),
                        ("status", .str "in_progress"),
                        ("assigned_to", .str "CTO"), ("created_at", .str "t"),
                        ("completed_at", .none), ("feedback", .list [])]]),
         ("learning_points", .list []), ("team_feedback", .dict []),
         ("current_milestone_id", .none)]

/-- What `from_dict` rebuilds from `exampleProjectDoc`: field values are the
raw JSON values (status tags stay strings), milestones become objects. -/
def exampleLoadedState : LoadedProjectState :=
  { project_id := .str "p", name := .str "X", requirements := .str "r",
    status := .str "not_started", created_at := .str "t0",
    updated_at := .str "t0",
    milestones := [⟨.str "milestone_1", .str "a", .str "in_progress",
                    .str "CTO", .str "t", .none, .list []⟩],
    learning_points := .list [], team_feedback := .dict [],
    current_milestone_id := .none }

/-- C1: `save_state` raises a `TypeError` on every `ProjectState`: `asdict`
leaves the mandatory `status` field as a `ProjectStatus` member and `json.dump`
rejects enum members, so no state is ever saved and the save/load round trip
can never return the original value. -/
theorem save_state_raises_typeerror (s : ProjectState) :
    save_state s = .error enumTypeError := by
  simp [save_state, ProjectState.to_dict, jsonSerializable, jsonSerializableDict]

/-- C5: `get_memory_summary` returns exactly the last five decisions and last
five learnings (all of them, in order, when fewer than five are stored), the
full context map and the full next-steps list; it is a pure projection and
leaves the memory unchanged. -/
theorem get_memory_summary_bounded (mem : AgentMemory) :
    (mem.get_memory_summary).recent_decisions.length = min 5 mem.decisions.length ∧
    (mem.get_memory_summary).key_learnings.length = min 5 mem.learnings.length ∧
    (mem.get_memory_summary).recent_decisions.length ≤ 5 ∧
    (mem.get_memory_summary).key_learnings.length ≤ 5 ∧
    (mem.get_memory_summary).recent_decisions <:+ mem.decisions ∧
    (mem.get_memory_summary).key_learnings <:+ mem.learnings ∧
    (mem.get_memory_summary).current_context = mem.context ∧
    (mem.get_memory_summary).pending_steps = mem.next_steps := by
  refine ⟨?_, ?_, ?_, ?_, List.drop_suffix _ _, List.drop_suffix _ _, rfl, rfl⟩ <;>
    simp [AgentMemory.get_memory_summary, pyLastFive] <;> omega

/-- C7: on a generation-service failure `process_message` appends exactly one
learning entry describing the error, leaves the decisions log unchanged, and
raises a wrapped error naming the role (it never returns a response); on
success with the persist-decision flag it appends exactly one decision entry
holding the response text and the full context (caller context plus the
memory summary), leaves the learnings unchanged, and returns the response. -/
theorem process_message_error_and_success (role msg now : String)
    (mem : AgentMemory) (context : List (String × PyVal))
    (llm : Except String String) :
    (∀ e, llm = .error e →
      (process_message role mem msg context true llm now).2 =
          .error ("Error in " ++ role ++ " agent: " ++ e) ∧
      (process_message role mem msg context true llm now).1.learnings =
          mem.learnings ++ [⟨now, "Error encountered: " ++ e⟩] ∧
      (process_message role mem msg context true llm now).1.decisions =
          mem.decisions) ∧
    (∀ t, llm = .ok t →
      (process_message role mem msg context true llm now).2 = .ok t ∧
      (process_message role mem msg context true llm now).1.decisions =
          mem.decisions ++
            [⟨now, t,
              .dict (dictSet context "memory_summary"
                mem.get_memory_summary.toPy)⟩] ∧
      (process_message role mem msg context true llm now).1.learnings =
          mem.learnings) := by
  constructor
  · rintro e rfl
    exact ⟨rfl, rfl, rfl⟩
  · rintro t rfl
    exact ⟨rfl, rfl, rfl⟩

/-- Concrete run of `process_message` on both branches: a failing Tester call
records the wrapped role-naming error, and a succeeding CEO call records the
response as a decision. -/
theorem process_message_error_and_success_witness :
    (process_message "Tester" ⟨[], [], [], []⟩ "msg" [] true
        (.error "boom") "t1").2 = .error "Error in Tester agent: boom" ∧
    (process_message "CEO" ⟨[], [], [], []⟩ "msg" [] true
        (.ok "ok") "t1").1.decisions =
      [⟨"t1", "ok",
        .dict (dictSet [] "memory_summary"
          (AgentMemory.get_memory_summary ⟨[], [], [], []⟩).toPy)⟩] := by
  refine ⟨?_, ?_⟩
  · exact ((process_message_error_and_success "Tester" "msg" "t1"
      ⟨[], [], [], []⟩ [] (.error "boom")).1 "boom" rfl).1
  · have h := ((process_message_error_and_success "CEO" "msg" "t1"
      ⟨[], [], [], []⟩ [] (.ok "ok")).2 "ok" rfl).2.1
    simpa using h
/-- Every `save_state` call errors: the serialized dict always holds the
mandatory status enum member (proof shared by the milestone theorems). -/
theorem save_state_always_error (s : ProjectState) :
    save_state s = .error enumTypeError := by
  simp [save_state, ProjectState.to_dict, jsonSerializable, jsonSerializableDict]

/-- Every `process_milestone` call aborts at the checkpoint save of source
line 304: the milestone is appended in memory, the save raises the enum
`TypeError`, nothing is written, and no role ever runs. -/
theorem process_milestone_run_aborts (state : ProjectState) (desc : String)
    (svc : String → Except String String) (clock : Nat → String) :
    process_milestone_run state desc svc clock =
      ⟨[],
       { state with
         milestones := state.milestones ++
           [{ id := milestoneId (state.milestones.length + 1),
              description := desc, status := .IN_PROGRESS,
              assigned_to := "CTO", created_at := clock 0,
              completed_at := Option.none, feedback := [] }],
         current_milestone_id :=
           some (milestoneId (state.milestones.length + 1)) },
       .error enumTypeError⟩ := by
  simp only [process_milestone_run, save_state_always_error]

/-- The faithful run and the counterfactual pipeline agree on every state
field assigned before the failing checkpoint save (milestone ids and
`current_milestone_id`, source lines 293-303) or never assigned at all
(overall status, both timestamps). -/
theorem run_core_agree (state : ProjectState) (desc : String)
    (svc : String → Except String String) (clock : Nat → String) :
    (process_milestone_run state desc svc clock).state.milestones.map
        Milestone.id =
      (process_milestone_core state desc svc clock).state.milestones.map
        Milestone.id ∧
    (process_milestone_run state desc svc clock).state.status =
      (process_milestone_core state desc svc clock).state.status ∧
    (process_milestone_run state desc svc clock).state.updated_at =
      (process_milestone_core state desc svc clock).state.updated_at ∧
    (process_milestone_run state desc svc clock).state.created_at =
      (process_milestone_core state desc svc clock).state.created_at ∧
    (process_milestone_run state desc svc clock).state.current_milestone_id =
      (process_milestone_core state desc svc clock).state.current_milestone_id
    := by
  rw [process_milestone_run_aborts]
  unfold process_milestone_core
  cases hrun : (roleLoop svc clock roleOrder 1).2.2 <;> simp [hrun]

/-- C2: even against a generation service that would answer every role, the
program never returns the role-to-response mapping and never completes the
milestone: the checkpoint save at source line 304 raises the enum `TypeError`
before the first role call, so the call aborts with that error, nothing is
written to disk, and the in-memory milestone stays `IN_PROGRESS` with no
completion timestamp and empty feedback. -/
theorem process_milestone_success_unreachable (state : ProjectState)
    (desc : String) (svc : String → Except String String)
    (clock : Nat → String) (a b c d : String)
    (_hCEO : svc "CEO" = .ok a) (_hCTO : svc "CTO" = .ok b)
    (_hTester : svc "Tester" = .ok c) (_hCoder : svc "Coder" = .ok d) :
    (process_milestone_run state desc svc clock).result =
      .error enumTypeError ∧
    (process_milestone_run state desc svc clock).writes = [] ∧
    (process_milestone_run state desc svc clock).state.milestones =
      state.milestones ++
        [{ id := milestoneId (state.milestones.length + 1),
           description := desc, status := .IN_PROGRESS, assigned_to := "CTO",
           created_at := clock 0, completed_at := Option.none,
           feedback := [] }] := by
  rw [process_milestone_run_aborts]
  exact ⟨rfl, rfl, rfl⟩

/-- The spec scenario (service always answers "ok") on a fresh project: the
call raises the `TypeError` and writes nothing, instead of returning the
all-"ok" mapping. -/
theorem process_milestone_success_unreachable_witness :
    (process_milestone_run (start_new_project "p" "X" "reqs" "t0")
        "Add login" okSvc constClock).result = .error enumTypeError ∧
    (process_milestone_run (start_new_project "p" "X" "reqs" "t0")
        "Add login" okSvc constClock).writes = [] :=
  ⟨(process_milestone_success_unreachable
      (start_new_project "p" "X" "reqs" "t0") "Add login" okSvc constClock
      "ok" "ok" "ok" "ok" rfl rfl rfl rfl).1,
   (process_milestone_success_unreachable
      (start_new_project "p" "X" "reqs" "t0") "Add login" okSvc constClock
      "ok" "ok" "ok" "ok" rfl rfl rfl rfl).2.1⟩

/-- C3: in the Tester-failure scenario the failing role call is never
reached: the checkpoint save raises first, so the propagated error is the
enum `TypeError` and not the wrapped Tester error, no feedback entry (CEO or
CTO) is ever recorded, the milestone stays `IN_PROGRESS` rather than
`ON_HOLD`, and nothing is persisted. -/
theorem process_milestone_role_failure_unreachable (state : ProjectState)
    (desc : String) (svc : String → Except String String)
    (clock : Nat → String) (a b e : String)
    (_hCEO : svc "CEO" = .ok a) (_hCTO : svc "CTO" = .ok b)
    (_hTester : svc "Tester" = .error e) :
    (process_milestone_run state desc svc clock).result =
      .error enumTypeError ∧
    (process_milestone_run state desc svc clock).writes = [] ∧
    (process_milestone_run state desc svc clock).state.milestones =
      state.milestones ++
        [{ id := milestoneId (state.milestones.length + 1),
           description := desc, status := .IN_PROGRESS, assigned_to := "CTO",
           created_at := clock 0, completed_at := Option.none,
           feedback := [] }] := by
  rw [process_milestone_run_aborts]
  exact ⟨rfl, rfl, rfl⟩

/-- The spec scenario with a failing Tester call on a fresh project: the
`TypeError` aborts the call before the CEO runs; no ON_HOLD milestone and no
CEO/CTO feedback is ever persisted. -/
theorem process_milestone_role_failure_unreachable_witness :
    (process_milestone_run (start_new_project "p" "X" "reqs" "t0")
        "Add login"
        (fun r => if r == "Tester" then .error "boom" else .ok "ok")
        constClock).result = .error enumTypeError ∧
    (process_milestone_run (start_new_project "p" "X" "reqs" "t0")
        "Add login"
        (fun r => if r == "Tester" then .error "boom" else .ok "ok")
        constClock).writes = [] :=
  ⟨(process_milestone_role_failure_unreachable
      (start_new_project "p" "X" "reqs" "t0") "Add login"
      (fun r => if r == "Tester" then .error "boom" else .ok "ok")
      constClock "ok" "ok" "boom" rfl rfl rfl).1,
   (process_milestone_role_failure_unreachable
      (start_new_project "p" "X" "reqs" "t0") "Add login"
      (fun r => if r == "Tester" then .error "boom" else .ok "ok")
      constClock "ok" "ok" "boom" rfl rfl rfl).2.1⟩

/-- C8: the checkpoint state (fresh `IN_PROGRESS` milestone, empty feedback)
is built and passed to `save_state` before any role invocation, but that very
write always raises the enum `TypeError`: the checkpoint is never persisted,
nothing at all is written, and the call ends at the checkpoint state with the
`TypeError` propagating — no role ever runs. -/
theorem process_milestone_checkpoint_never_written (state : ProjectState)
    (desc : String) (svc : String → Except String String)
    (clock : Nat → String) :
    (process_milestone_run state desc svc clock).writes = [] ∧
    save_state { state with
                 milestones := state.milestones ++
                   [{ id := milestoneId (state.milestones.length + 1),
                      description := desc, status := .IN_PROGRESS,
                      assigned_to := "CTO", created_at := clock 0,
                      completed_at := Option.none, feedback := [] }],
                 current_milestone_id :=
                   some (milestoneId (state.milestones.length + 1)) } =
      .error enumTypeError ∧
    (process_milestone_run state desc svc clock).state =
      { state with
        milestones := state.milestones ++
          [{ id := milestoneId (state.milestones.length + 1),
             description := desc, status := .IN_PROGRESS,
             assigned_to := "CTO", created_at := clock 0,
             completed_at := Option.none, feedback := [] }],
        current_milestone_id :=
          some (milestoneId (state.milestones.length + 1)) } ∧
    (process_milestone_run state desc svc clock).result =
      .error enumTypeError := by
  rw [process_milestone_run_aborts]
  exact ⟨rfl, save_state_always_error _, rfl, rfl⟩



/-- `Nat.toDigitsCore` with enough fuel prepends the decimal digit list. -/
theorem toDigitsCore_eq_digitsOf (f : Nat) :
    ∀ (n : Nat) (ds : List Char), n < f →
      Nat.toDigitsCore 10 f n ds = digitsOf n ++ ds := by
  induction f with
  | zero => intro n ds h; omega
  | succ f ih =>
    intro n ds h
    simp only [Nat.toDigitsCore]
    by_cases h10 : n / 10 = 0
    · have hn : n < 10 := by omega
      rw [if_pos h10, digitsOf, if_pos hn, Nat.mod_eq_of_lt hn]
      rfl
    · have hlt : n / 10 < f := by
        have hself : n / 10 < n := Nat.div_lt_self (by omega) (by omega)
        omega
      rw [if_neg h10, ih (n / 10) (Nat.digitChar (n % 10) :: ds) hlt]
      conv_rhs => rw [digitsOf, if_neg (by omega)]
      simp

/-- `Nat.repr` renders exactly the decimal digit list. -/
theorem natRepr_eq_digitsOf (n : Nat) :
    Nat.repr n = (digitsOf n).asString := by
  unfold Nat.repr Nat.toDigits
  rw [toDigitsCore_eq_digitsOf (n + 1) n [] (Nat.lt_succ_self n)]
  simp

/-- Digit characters evaluate back to their digit. -/
theorem digitChar_toNat_sub (m : Nat) (h : m < 10) :
    (Nat.digitChar m).toNat - 48 = m := by
  interval_cases m <;> rfl

/-- Evaluating a digit list with one digit appended. -/
theorem digitsVal_append_singleton (l : List Char) (c : Char) :
    digitsVal (l ++ [c]) = 10 * digitsVal l + (c.toNat - 48) := by
  simp [digitsVal, List.foldl_append]

/-- Decimal rendering round-trips through evaluation. -/
theorem digitsVal_digitsOf (n : Nat) : digitsVal (digitsOf n) = n := by
  induction n using Nat.strong_induction_on with
  | _ n ih =>
    rw [digitsOf]
    by_cases h : n < 10
    · rw [if_pos h]
      simpa [digitsVal] using digitChar_toNat_sub n h
    · rw [if_neg h, digitsVal_append_singleton,
          ih (n / 10) (Nat.div_lt_self (by omega) (by omega)),
          digitChar_toNat_sub (n % 10) (Nat.mod_lt n (by omega))]
      omega

/-- Decimal rendering of naturals is injective. -/
theorem natRepr_injective (m n : Nat) (h : Nat.repr m = Nat.repr n) :
    m = n := by
  rw [natRepr_eq_digitsOf, natRepr_eq_digitsOf] at h
  have hdigits : digitsOf m = digitsOf n := congrArg String.data h
  have := congrArg digitsVal hdigits
  rwa [digitsVal_digitsOf, digitsVal_digitsOf] at this

/-- Milestone identifiers determine their number. -/
theorem milestoneId_injective (m n : Nat) (h : milestoneId m = milestoneId n) :
    m = n := by
  apply natRepr_injective
  apply String.ext
  have hd := congrArg String.data h
  simp only [milestoneId, String.data_append] at hd
  exact List.append_cancel_left hd

/-- A fresh project has the positional-id invariant (no milestones). -/
theorem milestoneIdsOk_start (pid name reqs ts : String) :
    MilestoneIdsOk (start_new_project pid name reqs ts) := by
  simp [MilestoneIdsOk, start_new_project]

/-- One milestone pass preserves the positional-id invariant: the appended
milestone's id is `"milestone_<old count + 1>"` in both outcomes. -/
theorem milestoneIdsOk_core (s : ProjectState) (desc : String)
    (svc : String → Except String String) (clock : Nat → String)
    (hs : MilestoneIdsOk s) :
    MilestoneIdsOk (process_milestone_core s desc svc clock).state := by
  unfold MilestoneIdsOk at hs ⊢
  unfold process_milestone_core
  cases hrun : (roleLoop svc clock roleOrder 1).2.2 <;>
    simp [hrun, List.range_succ, hs]

/-- The positional-id invariant holds after any run of driver calls. -/
theorem runOpsFrom_ids (pid : String) (ops : List TeamOp)
    (st? : Option ProjectState)
    (hst : ∀ s, st? = some s → MilestoneIdsOk s) :
    ∀ s, runOpsFrom pid st? ops = some s → MilestoneIdsOk s := by
  induction ops generalizing st? with
  | nil => exact hst
  | cons op rest ih =>
    have hstep : ∀ s, applyOp pid st? op = some s → MilestoneIdsOk s := by
      intro s hs
      cases op with
      | start name reqs ts =>
        simp only [applyOp] at hs
        cases hs
        exact milestoneIdsOk_start pid name reqs ts
      | milestone desc svc clock =>
        cases hcur : st? with
        | none => rw [hcur] at hs; exact absurd hs (by simp [applyOp])
        | some s0 =>
          rw [hcur] at hs
          simp only [applyOp, Option.some.injEq] at hs
          rw [← hs]
          exact milestoneIdsOk_core s0 desc svc clock (hst s0 hcur)
      | resume => exact hst s hs
    exact ih (applyOp pid st? op) hstep

/-- C4: after any sequence of driver calls, the milestone id list is exactly
`["milestone_1", "milestone_2", ...]` — the 1-based append positions — and in
particular the ids are pairwise distinct. -/
theorem milestone_ids_positional (pid : String) (ops : List TeamOp)
    (st : ProjectState) (h : runOps pid ops = some st) :
    st.milestones.map Milestone.id =
      (List.range st.milestones.length).map (fun i => milestoneId (i + 1)) ∧
    (st.milestones.map Milestone.id).Nodup := by
  have hids : MilestoneIdsOk st :=
    runOpsFrom_ids pid ops Option.none (fun s hs => by cases hs) st h
  refine ⟨hids, ?_⟩
  rw [hids]
  exact (List.nodup_range _).map (fun a b hab => by
    have := milestoneId_injective (a + 1) (b + 1) hab
    omega)

/-- A concrete three-call run: two milestones get ids "milestone_1" then
"milestone_2" — strictly increasing with append position, and distinct. -/
theorem milestone_ids_positional_witness :
    runOps "p" [TeamOp.start "X" "r" "t0",
      TeamOp.milestone "a" okSvc constClock,
      TeamOp.milestone "b" okSvc constClock] = some exampleRunState2 ∧
    exampleRunState2.milestones.map Milestone.id =
      ["milestone_1", "milestone_2"] ∧
    (exampleRunState2.milestones.map Milestone.id).Nodup :=
  ⟨rfl, rfl,
   (milestone_ids_positional "p"
     [TeamOp.start "X" "r" "t0", TeamOp.milestone "a" okSvc constClock,
      TeamOp.milestone "b" okSvc constClock] exampleRunState2 rfl).2⟩

/-- A milestone pass assigns only `milestones` and `current_milestone_id`:
the overall project status is untouched in both outcomes. -/
theorem core_status_eq (s : ProjectState) (desc : String)
    (svc : String → Except String String) (clock : Nat → String) :
    (process_milestone_core s desc svc clock).state.status = s.status := by
  unfold process_milestone_core
  cases hrun : (roleLoop svc clock roleOrder 1).2.2 <;> simp [hrun]

/-- A milestone pass never touches `updated_at`. -/
theorem core_updated_at_eq (s : ProjectState) (desc : String)
    (svc : String → Except String String) (clock : Nat → String) :
    (process_milestone_core s desc svc clock).state.updated_at =
      s.updated_at := by
  unfold process_milestone_core
  cases hrun : (roleLoop svc clock roleOrder 1).2.2 <;> simp [hrun]

/-- A milestone pass never touches `created_at`. -/
theorem core_created_at_eq (s : ProjectState) (desc : String)
    (svc : String → Except String String) (clock : Nat → String) :
    (process_milestone_core s desc svc clock).state.created_at =
      s.created_at := by
  unfold process_milestone_core
  cases hrun : (roleLoop svc clock roleOrder 1).2.2 <;> simp [hrun]

/-- Any state projection a milestone pass preserves is preserved by every
run of non-`start` driver calls (`process_milestone` and `resume_project`). -/
theorem runOpsFrom_preserves {α : Type} (f : ProjectState → α)
    (hf : ∀ s desc svc clock,
      f (process_milestone_core s desc svc clock).state = f s)
    (pid : String) (ops : List TeamOp)
    (hops : ∀ op ∈ ops, op.isStart = false) (st? : Option ProjectState) :
    (runOpsFrom pid st? ops).map f = st?.map f := by
  induction ops generalizing st? with
  | nil => rfl
  | cons op rest ih =>
    have h1 : (applyOp pid st? op).map f = st?.map f := by
      cases op with
      | start name reqs ts =>
        have := hops (.start name reqs ts) (List.mem_cons_self _ _)
        simp [TeamOp.isStart] at this
      | milestone desc svc clock =>
        cases st? with
        | none => rfl
        | some s => simp [applyOp, hf]
      | resume => rfl
    calc (runOpsFrom pid st? (op :: rest)).map f
        = (runOpsFrom pid (applyOp pid st? op) rest).map f := rfl
      _ = (applyOp pid st? op).map f :=
          ih (fun x hx => hops x (List.mem_cons_of_mem _ hx)) _
      _ = st?.map f := h1

/-- C9: `start_new_project` sets the overall status to `NOT_STARTED`, and no
sequence of `process_milestone` and `resume_project` calls — whatever each
milestone's outcome — ever changes the overall status field: it still equals
its value at creation. -/
theorem project_status_fixed_at_creation (pid name reqs ts : String) :
    (start_new_project pid name reqs ts).status = ProjectStatus.NOT_STARTED ∧
    ∀ (ops : List TeamOp), (∀ op ∈ ops, op.isStart = false) →
      ∀ st : ProjectState,
        runOpsFrom pid (some (start_new_project pid name reqs ts)) ops =
          some st →
        st.status = (start_new_project pid name reqs ts).status := by
  refine ⟨rfl, ?_⟩
  intro ops hops st h
  have hpres := runOpsFrom_preserves ProjectState.status
    (fun s desc svc clock => core_status_eq s desc svc clock) pid ops hops
    (some (start_new_project pid name reqs ts))
  rw [h] at hpres
  simpa using hpres

/-- A failed milestone then a resume: the overall status is still
`NOT_STARTED`. -/
theorem project_status_fixed_at_creation_witness :
    runOpsFrom "p" (some (start_new_project "p" "X" "r" "t0"))
      [TeamOp.milestone "a" failSvc constClock, TeamOp.resume] =
      some exampleFailState ∧
    exampleFailState.status = ProjectStatus.NOT_STARTED :=
  ⟨rfl,
   ((project_status_fixed_at_creation "p" "X" "r" "t0").2
      [TeamOp.milestone "a" failSvc constClock, TeamOp.resume]
      (by decide) exampleFailState rfl).trans
     (project_status_fixed_at_creation "p" "X" "r" "t0").1⟩

/-- C10: `updated_at` is written once, at creation, where it equals
`created_at`; no later `process_milestone` or `resume_project` call ever
changes either field, so the persisted `updated_at` never reflects later
mutations. -/
theorem updated_at_written_only_at_creation (pid name reqs ts : String) :
    (start_new_project pid name reqs ts).updated_at = ts ∧
    (start_new_project pid name reqs ts).created_at = ts ∧
    ∀ (ops : List TeamOp), (∀ op ∈ ops, op.isStart = false) →
      ∀ st : ProjectState,
        runOpsFrom pid (some (start_new_project pid name reqs ts)) ops =
          some st →
        st.updated_at = ts ∧ st.created_at = ts := by
  refine ⟨rfl, rfl, ?_⟩
  intro ops hops st h
  constructor
  · have hpres := runOpsFrom_preserves ProjectState.updated_at
      (fun s desc svc clock => core_updated_at_eq s desc svc clock) pid ops
      hops (some (start_new_project pid name reqs ts))
    rw [h] at hpres
    simpa using hpres
  · have hpres := runOpsFrom_preserves ProjectState.created_at
      (fun s desc svc clock => core_created_at_eq s desc svc clock) pid ops
      hops (some (start_new_project pid name reqs ts))
    rw [h] at hpres
    simpa using hpres

/-- After a successful milestone, `updated_at` still holds the creation
timestamp and still equals `created_at`. -/
theorem updated_at_written_only_at_creation_witness :
    runOpsFrom "p" (some (start_new_project "p" "X" "r" "t0"))
      [TeamOp.milestone "a" okSvc constClock] = some exampleRunState ∧
    (exampleRunState.updated_at = "t0" ∧ exampleRunState.created_at = "t0") :=
  ⟨rfl,
   (updated_at_written_only_at_creation "p" "X" "r" "t0").2.2
     [TeamOp.milestone "a" okSvc constClock] (by decide) exampleRunState rfl⟩

/-- C6: loading a project id for which no document exists yields absence
(`None`), not an error; loading an existing well-formed document succeeds and
returns the state `from_dict` deserializes, nested milestones rebuilt. -/
theorem load_state_absent_or_deserializes (store : List (String × PyVal))
    (pid : String) :
    (dictGet? store pid = Option.none →
      load_state store pid = .ok Option.none) ∧
    (∀ doc st, dictGet? store pid = some doc → from_dict doc = .ok st →
      load_state store pid = .ok (some st)) := by
  constructor
  · intro h
    simp [load_state, h]
  · intro doc st h1 h2
    simp [load_state, h1, h2]

/-- A store holding one project "p": loading the never-saved "q" answers
absence; loading "p" rebuilds the state with its one nested milestone. -/
theorem load_state_absent_or_deserializes_witness :
    load_state [("p", exampleProjectDoc)] "q" = .ok Option.none ∧
    load_state [("p", exampleProjectDoc)] "p" =
      .ok (some exampleLoadedState) :=
  ⟨(load_state_absent_or_deserializes [("p", exampleProjectDoc)] "q").1 rfl,
   (load_state_absent_or_deserializes [("p", exampleProjectDoc)] "p").2
     exampleProjectDoc exampleLoadedState rfl rfl⟩
